import Mathlib

/-!
Verification of the MCP conformance test harness `comprehensive-test.py`.

The harness is embedded shallowly:

* JSON values parsed from a reply line become the inductive `JVal`; the
  dynamic (duck-typed) operations the script performs on them — `k in v`,
  `v[k]`, `v.get(k, d)`, iteration, `len` — become `Except`-valued
  functions whose `.error` case marks the exception the interpreter would
  raise at that spot (TypeError / KeyError / AttributeError).
* Each test step (`test_init` for `test_initialize`, `test_list_tools`,
  `test_list_resources`, `test_tool_execution`) becomes a function from
  the parsed response to `Except String Bool`: `.ok b` is the step's
  boolean return value, `.error e` an unhandled exception escaping it.
* The child process is abstracted by `ProcHandle` (is it still running;
  does it exit within the bounded wait after a graceful termination
  request); the lifecycle operations record the externally visible
  `HarnessAction`s they take (spawn, reading stderr, SIGTERM, SIGKILL, and an
  entry marker for each invocation of `stop_server`).
* The server under test is an environment (`RunEnv`): the raw line each
  `readline()` would yield for the four requests of the fixed sequence,
  plus the `json.loads` parse function (`Option`-valued: `none` is a
  parse failure, which the script catches and converts to `None`).
-/

/-- JSON values as produced by `json.loads`: null, booleans, numbers
(modelled as integers; the distinction float/int is irrelevant here),
strings, arrays and objects (association lists, first binding wins on
lookup, as a parsed JSON object has distinct keys). -/
inductive JVal where
  | null
  | bool (b : Bool)
  | num (n : Int)
  | str (s : String)
  | arr (elems : List JVal)
  | obj (fields : List (String × JVal))

/-- Python truthiness of a parsed JSON value: `None`, `False`, `0`, `""`,
`[]` and `{}` are falsy, everything else truthy. -/
def JVal.truthy : JVal → Bool
  | .null => false
  | .bool b => b
  | .num n => n != 0
  | .str s => !s.isEmpty
  | .arr l => !l.isEmpty
  | .obj l => !l.isEmpty

/-- Python `pat in s` for strings: substring containment. -/
def strMem (pat s : String) : Bool :=
  pat.isEmpty || (s.splitOn pat).length > 1

/-- Python `x in l` where `x` is a string and `l` a parsed JSON array:
equality of the Python string against each element — true exactly when
some element is that same string (a string never equals a non-string). -/
def containsStr (l : List JVal) (x : String) : Bool :=
  l.any (fun v => match v with
    | .str t => t == x
    | _ => false)

/-- Python `k in v` for a parsed value `v`: key lookup for a dict,
substring test for a string, membership for a list; TypeError on
null / bool / number. -/
def hasKey : JVal → String → Except String Bool
  | .obj fields, k => .ok (List.lookup k fields).isSome
  | .str s, k => .ok (strMem k s)
  | .arr l, k => .ok (containsStr l k)
  | _, _ => .error "TypeError: argument is not iterable"

/-- Python `v[k]` with a string key: dict lookup (KeyError when the key is
absent), TypeError on every non-dict value. -/
def index : JVal → String → Except String JVal
  | .obj fields, k =>
    match List.lookup k fields with
    | some v => .ok v
    | none => .error "KeyError"
  | _, _ => .error "TypeError: value is not subscriptable by a string"

/-- Python `v.get(k, dflt)`: only dicts have `.get`; anything else raises
AttributeError. -/
def dictGet : JVal → String → JVal → Except String JVal
  | .obj fields, k, dflt => .ok ((List.lookup k fields).getD dflt)
  | _, _, _ => .error "AttributeError: no method get"

/-- Python `for x in v`: a list yields its elements, a string its
characters (as one-character strings), a dict its keys; TypeError on
null / bool / number. -/
def pyIter : JVal → Except String (List JVal)
  | .arr l => .ok l
  | .str s => .ok (s.toList.map (fun c => JVal.str (String.singleton c)))
  | .obj fields => .ok (fields.map (fun p => JVal.str p.fst))
  | _ => .error "TypeError: value is not iterable"

/-- Python `len(v)`: defined for lists, strings and dicts; TypeError
otherwise. -/
def pyLen : JVal → Except String Nat
  | .arr l => .ok l.length
  | .str s => .ok s.length
  | .obj fields => .ok fields.length
  | _ => .error "TypeError: value has no len"

/-- The list comprehension `[tool["name"] for tool in tools]` of
`test_list_tools` (line 148): extracts each element's `"name"` entry in
order, raising (KeyError / TypeError via `index`) at the first element
that is not a dict carrying the key. -/
def extractNames : List JVal → Except String (List JVal)
  | [] => .ok []
  | t :: ts =>
    match index t "name" with
    | .error e => .error e
    | .ok n =>
      match extractNames ts with
      | .error e => .error e
      | .ok rest => .ok (n :: rest)

/-- The fixed required tool names of `test_list_tools` (line 146). -/
def expected_tools : List String :=
  ["listMBeans", "getMBeanInfo", "getAttribute", "setAttribute",
   "listDomains", "getConnectionInfo"]

/-- `missing_tools` of `test_list_tools` (line 149): the required names
not present among the extracted `found_tools` values; when non-empty the
step fails and prints exactly this list. -/
def missing_tools (found_tools : List JVal) : List String :=
  expected_tools.filter (fun t => !containsStr found_tools t)

/-- Drop leading whitespace characters from a character list. -/
def dropWhileWS : List Char → List Char
  | [] => []
  | c :: cs => if c.isWhitespace then dropWhileWS cs else c :: cs

/-- Python `str.strip()`: remove whitespace from both ends (stated over
the character list so that it is structurally recursive and hence
kernel-computable). -/
def pyStrip (s : String) : String :=
  String.mk (dropWhileWS (dropWhileWS s.data.reverse).reverse)

/-- `MCPTester.send_request` (lines 74-90), from the point where the
request has been written: `readline()` yields `response_line` (the empty
string signals a closed stream, Python-falsy, line 83 returns `None`);
otherwise `json.loads(response_line.strip())` is attempted, where `loads`
returns `none` for a line that fails to parse — the surrounding
`try/except` (which also covers a failed write, folded here into an empty
line) converts that exception into the return value `None`. -/
def send_request (response_line : String) (loads : String → Option JVal) :
    Option JVal :=
  if response_line.isEmpty then none
  else loads (pyStrip response_line)

/-- `MCPTester.test_initialize` (lines 92-128), here `test_init`, applied to the value
`send_request` returned: `if not response` fails the step; then
`"result" not in response` fails it; then `result = response["result"]`
and `"capabilities" not in result` decides it. -/
def test_init (response : Option JVal) : Except String Bool :=
  match response with
  | none => .ok false
  | some r =>
    if r.truthy = false then .ok false
    else
      match hasKey r "result" with
      | .error e => .error e
      | .ok false => .ok false
      | .ok true =>
        match index r "result" with
        | .error e => .error e
        | .ok result =>
          match hasKey result "capabilities" with
          | .error e => .error e
          | .ok c => .ok c

/-- `MCPTester.test_list_tools` (lines 130-156):
`if not response or "result" not in response` fails the step; then
`tools = response["result"].get("tools", [])`,
`found_tools = [tool["name"] for tool in tools]`,
`missing_tools = [tool for tool in expected_tools if tool not in found_tools]`;
the step passes exactly when `missing_tools` is empty. -/
def test_list_tools (response : Option JVal) : Except String Bool :=
  match response with
  | none => .ok false
  | some r =>
    if r.truthy = false then .ok false
    else
      match hasKey r "result" with
      | .error e => .error e
      | .ok false => .ok false
      | .ok true =>
        match index r "result" with
        | .error e => .error e
        | .ok result =>
          match dictGet result "tools" (.arr []) with
          | .error e => .error e
          | .ok tools =>
            match pyIter tools with
            | .error e => .error e
            | .ok elems =>
              match extractNames elems with
              | .error e => .error e
              | .ok found_tools => .ok (missing_tools found_tools).isEmpty

/-- `MCPTester.test_list_resources` (lines 158-180):
`if not response or "result" not in response` fails the step; then
`resources = response["result"].get("resources", [])`; the step fails when
`len(resources) == 0`, passes otherwise. -/
def test_list_resources (response : Option JVal) : Except String Bool :=
  match response with
  | none => .ok false
  | some r =>
    if r.truthy = false then .ok false
    else
      match hasKey r "result" with
      | .error e => .error e
      | .ok false => .ok false
      | .ok true =>
        match index r "result" with
        | .error e => .error e
        | .ok result =>
          match dictGet result "resources" (.arr []) with
          | .error e => .error e
          | .ok resources =>
            match pyLen resources with
            | .error e => .error e
            | .ok n => .ok (!(n == 0))

/-- `MCPTester.test_tool_execution` (lines 182-207):
`if not response or "result" not in response` fails the step; then
`content = response["result"].get("content", [])`; the step fails when
`content` is falsy, passes otherwise. -/
def test_tool_execution (response : Option JVal) : Except String Bool :=
  match response with
  | none => .ok false
  | some r =>
    if r.truthy = false then .ok false
    else
      match hasKey r "result" with
      | .error e => .error e
      | .ok false => .ok false
      | .ok true =>
        match index r "result" with
        | .error e => .error e
        | .ok result =>
          match dictGet result "content" (.arr []) with
          | .error e => .error e
          | .ok content => .ok content.truthy

example : test_init none = .ok false := rfl
example :
    test_init
      (some (.obj [("result", .obj [("capabilities", .obj [])])])) =
      .ok true := rfl
example : test_list_resources
    (some (.obj [("result", .obj [("resources", .arr [])])])) =
    .ok false := rfl

/-- A handle on the spawned child process (`self.server_process` once it
is a `Popen` object): whether the process is still running, and whether —
if it is signalled to terminate gracefully — it exits within the bounded
5-second wait of `stop_server` (a server that ignores SIGTERM does not). -/
structure ProcHandle where
  alive : Bool
  exitsOnTerm : Bool
  deriving DecidableEq

/-- Externally visible process-management actions of the harness:
spawning the child, reading its stderr, delivering SIGTERM / SIGKILL, and
an entry marker recorded each time `stop_server` is invoked. -/
inductive HarnessAction where
  | spawn
  | readStderr
  | sigterm
  | sigkill
  | stopCall
  deriving DecidableEq

/-- The environment `start_server` runs against: does the JAR path exist
on disk (line 24), does `subprocess.Popen` raise (caught at line 60), has
the spawned process already exited when `poll()` runs after the 3-second
settle sleep (line 52), and — for the handle it creates — whether the
process would exit on a later graceful termination request. -/
structure StartEnv where
  jarExists : Bool
  spawnRaises : Bool
  exitsDuringGrace : Bool
  exitsOnTerm : Bool
  deriving DecidableEq

/-- `MCPTester.start_server` (lines 20-62) over the prior value of
`self.server_process`: returns its boolean result, the new handle state,
and the actions taken. Missing JAR: report failure, nothing spawned.
`Popen` raising: the exception is caught, failure reported, the attribute
keeps its prior value. Otherwise the child is spawned and the handle
assigned; if `poll()` shows it already exited after the settle sleep, its
stderr is read and surfaced and failure is reported (the handle keeps the
dead process); otherwise success. -/
def start_server (env : StartEnv) (s : Option ProcHandle) :
    Bool × Option ProcHandle × List HarnessAction :=
  if env.jarExists = false then (false, s, [])
  else if env.spawnRaises then (false, s, [])
  else if env.exitsDuringGrace then
    (false, some { alive := false, exitsOnTerm := env.exitsOnTerm },
     [.spawn, .readStderr])
  else
    (true, some { alive := true, exitsOnTerm := env.exitsOnTerm }, [.spawn])

/-- `MCPTester.stop_server` (lines 64-72): records its invocation
(`.stopCall`), does nothing when `self.server_process` is still `None`;
otherwise `terminate()` — which per `Popen.send_signal` polls first and
delivers SIGTERM only to a process whose exit has not been observed —
then `wait(timeout=5)`, and `kill()` (SIGKILL) if the wait times out.
The attribute is never reset to `None`, so the (now dead) handle
survives the call. -/
def stop_server : Option ProcHandle → Option ProcHandle × List HarnessAction
  | none => (none, [.stopCall])
  | some p =>
    if p.alive then
      if p.exitsOnTerm then
        (some { p with alive := false }, [.stopCall, .sigterm])
      else
        (some { p with alive := false }, [.stopCall, .sigterm, .sigkill])
    else
      (some p, [.stopCall])

/-- The environment a whole run is driven by: the start conditions, the
parse function, and the raw line `readline()` yields for each of the four
requests of the fixed sequence (empty line = stream closed). -/
structure RunEnv where
  startEnv : StartEnv
  loads : String → Option JVal
  line1 : String
  line2 : String
  line3 : String
  line4 : String

/-- The parsed response each of the four steps receives. -/
def resp1 (env : RunEnv) : Option JVal := send_request env.line1 env.loads

/-- Response to the `tools/list` request. -/
def resp2 (env : RunEnv) : Option JVal := send_request env.line2 env.loads

/-- Response to the `resources/list` request. -/
def resp3 (env : RunEnv) : Option JVal := send_request env.line3 env.loads

/-- Response to the `tools/call` request. -/
def resp4 (env : RunEnv) : Option JVal := send_request env.line4 env.loads

/-- The `tests` list of `run_all_tests` (lines 218-223), each step applied
to its response: initialize, list tools, list resources, invoke tool. -/
def step_results (env : RunEnv) : List (Except String Bool) :=
  [test_init (resp1 env),
   test_list_tools (resp2 env),
   test_list_resources (resp3 env),
   test_tool_execution (resp4 env)]

/-- `total = len(tests)` (line 226). -/
def total_tests : Nat := 4

/-- The sequencer loop of `run_all_tests` (lines 228-232):
`for test in tests: if test(): passed += 1 else: break`. Returns the
final `passed` count (or the exception a step raised) together with how
many steps were actually executed; a failing or raising step stops the
loop, so later entries are never looked at. -/
def run_steps : List (Except String Bool) → Except String Nat × Nat
  | [] => (.ok 0, 0)
  | t :: ts =>
    match t with
    | .error e => (.error e, 1)
    | .ok false => (.ok 0, 1)
    | .ok true =>
      match run_steps ts with
      | (.ok p, a) => (.ok (p + 1), a + 1)
      | (.error e, a) => (.error e, a + 1)

/-- What a whole `run_all_tests` call yields: the returned boolean (or
the exception that escaped a step), the final process handle, the actions
taken, and how many requests were sent (each executed step sends exactly
one). -/
structure RunResult where
  outcome : Except String Bool
  finalProc : Option ProcHandle
  actions : List HarnessAction
  requestsSent : Nat

/-- `MCPTester.run_all_tests` (lines 209-245): start the server — on
failure return `False` at once (line 215, before the `try/finally`, so no
cleanup runs); otherwise run the sequencer loop and, in the `finally`
block, call `stop_server` (also when a step raised, in which case the
exception then continues to propagate). The return value is
`passed == total`. -/
def run_all_tests (env : RunEnv) (s : Option ProcHandle) : RunResult :=
  match start_server env.startEnv s with
  | (false, s1, acts1) =>
    { outcome := .ok false, finalProc := s1, actions := acts1,
      requestsSent := 0 }
  | (true, s1, acts1) =>
    match run_steps (step_results env) with
    | (outcome, attempted) =>
      match stop_server s1 with
      | (s2, acts2) =>
        { outcome := outcome.map (fun passed => passed == total_tests),
          finalProc := s2, actions := acts1 ++ acts2,
          requestsSent := attempted }

/-- `len(sys.argv) > 1 and sys.argv[1] == "--help"` (line 249), over the
full `argv` including the script name at position 0. -/
def helpRequested : List String → Bool
  | _ :: a1 :: _ => a1 == "--help"
  | _ => false

/-- The interrupt handler installed by `main` (lines 261-264): stop the
server, then `sys.exit(1)`. Returns the exit code, the handle after
cleanup, and the actions taken. -/
def signal_handler (s : Option ProcHandle) :
    Nat × Option ProcHandle × List HarnessAction :=
  match stop_server s with
  | (s2, acts) => (1, s2, acts)

/-- `main` (lines 247-269) without an interrupt: with the help flag it
prints usage and returns (the interpreter then exits 0) having taken no
action and sent no request; otherwise it runs the full sequence on a
fresh tester (`server_process = None`) and calls
`sys.exit(0 if success else 1)`. An exception escaping the run is kept as
`.error` (the interpreter prints a traceback and exits 1). Result:
(exit outcome, actions, requests sent). -/
def main_run (argv : List String) (env : RunEnv) :
    Except String Nat × List HarnessAction × Nat :=
  if helpRequested argv then (.ok 0, [], 0)
  else
    match run_all_tests env none with
    | r =>
      (r.outcome.map (fun success => if success then 0 else 1),
       r.actions, r.requestsSent)

/-- The operating-system exit code of a non-interrupted run: the code
passed to `sys.exit`, or 1 when an exception escaped `main`. -/
def process_exit_code (argv : List String) (env : RunEnv) : Nat :=
  match (main_run argv env).fst with
  | .ok c => c
  | .error _ => 1

/-- The `argv` of an invocation with no arguments. -/
def argvRun : List String := ["comprehensive-test.py"]

/-! ### Concrete environments used as evaluation witnesses -/

/-- A launch environment in which everything goes well. -/
def goodStart : StartEnv :=
  { jarExists := true, spawnRaises := false, exitsDuringGrace := false,
    exitsOnTerm := true }

/-- A launch environment in which the JAR path does not exist. -/
def jarMissingStart : StartEnv :=
  { jarExists := false, spawnRaises := false, exitsDuringGrace := false,
    exitsOnTerm := true }

/-- A well-formed reply to `initialize`. -/
def init_ok_resp : JVal :=
  .obj [("jsonrpc", .str "2.0"), ("id", .num 1),
        ("result", .obj [("capabilities",
           .obj [("tools", .obj []), ("resources", .obj [])])])]

/-- A reply to `tools/list` carrying all six required tools. -/
def tools_ok_resp : JVal :=
  .obj [("jsonrpc", .str "2.0"), ("id", .num 2),
        ("result", .obj [("tools",
           .arr (expected_tools.map (fun n => .obj [("name", .str n)])))])]

/-- A reply to `resources/list` carrying one resource. -/
def resources_ok_resp : JVal :=
  .obj [("jsonrpc", .str "2.0"), ("id", .num 3),
        ("result", .obj [("resources",
           .arr [.obj [("uri", .str "jmx://mbean/x"), ("name", .str "x")]])])]

/-- A reply to `resources/list` whose resource list is empty. -/
def resources_empty_resp : JVal :=
  .obj [("jsonrpc", .str "2.0"), ("id", .num 3),
        ("result", .obj [("resources", .arr [])])]

/-- A reply to `tools/call` with non-empty content. -/
def call_ok_resp : JVal :=
  .obj [("jsonrpc", .str "2.0"), ("id", .num 4),
        ("result", .obj [("content",
           .arr [.obj [("type", .str "text"), ("text", .str "domains")]])])]

/-- A parse table in which all four exchanges succeed. -/
def demo_loads : String → Option JVal := fun s =>
  if s == "L1" then some init_ok_resp
  else if s == "L2" then some tools_ok_resp
  else if s == "L3" then some resources_ok_resp
  else if s == "L4" then some call_ok_resp
  else none

/-- A run in which the server behaves perfectly: all four steps pass. -/
def good_env : RunEnv :=
  { startEnv := goodStart, loads := demo_loads,
    line1 := "L1", line2 := "L2", line3 := "L3", line4 := "L4" }

/-- A parse table whose `resources/list` reply has an empty list. -/
def empty_resources_loads : String → Option JVal := fun s =>
  if s == "L1" then some init_ok_resp
  else if s == "L2" then some tools_ok_resp
  else if s == "L3" then some resources_empty_resp
  else if s == "L4" then some call_ok_resp
  else none

/-- A run in which steps 1 and 2 pass and the `resources/list` reply
carries an empty resource list. -/
def empty_resources_env : RunEnv :=
  { startEnv := goodStart, loads := empty_resources_loads,
    line1 := "L1", line2 := "L2", line3 := "L3", line4 := "L4" }

/-- A run in which the reply stream is closed from the first request on
(every `readline()` yields the empty string). -/
def closed_stream_env : RunEnv :=
  { startEnv := goodStart, loads := fun _ => none,
    line1 := "", line2 := "", line3 := "", line4 := "" }

/-- A run in which the server fails to launch (missing JAR). -/
def jar_missing_env : RunEnv :=
  { startEnv := jarMissingStart, loads := fun _ => none,
    line1 := "", line2 := "", line3 := "", line4 := "" }

/-! ### Helper lemmas -/

/-- Passing a succeeding step adds one to the count of executed steps. -/
theorem run_steps_cons_true (ts : List (Except String Bool)) :
    (run_steps (Except.ok true :: ts)).snd = (run_steps ts).snd + 1 := by
  rcases h : run_steps ts with ⟨o, a⟩
  cases o <;> simp [run_steps, h]

/-- The sequencer loop executes at most `n + 1` steps when the step at
index `n` does not succeed. -/
theorem run_steps_stops_at_failure (l : List (Except String Bool)) (n : Nat)
    (h : n < l.length) (hfail : l.get ⟨n, h⟩ ≠ .ok true) :
    (run_steps l).snd ≤ n + 1 := by
  induction l generalizing n with
  | nil => exact absurd h (by simp)
  | cons t ts ih =>
    cases t with
    | error e => simp only [run_steps]; exact Nat.succ_le_succ (Nat.zero_le n)
    | ok b =>
      cases b with
      | false => simp only [run_steps]; exact Nat.succ_le_succ (Nat.zero_le n)
      | true =>
        cases n with
        | zero => exact absurd rfl hfail
        | succ m =>
          have hm : m < ts.length := Nat.lt_of_succ_lt_succ h
          have := ih m hm (by simpa using hfail)
          rw [run_steps_cons_true]
          exact Nat.succ_le_succ this

/-! ### Claims -/

/-- C1: for every step index N (1-based over the fixed four-step
sequence), if step N does not succeed then the sequencer executes at most
N steps — in particular step N+1 is never executed; stated with the
0-based index `n` (so 1-based N = n+1): a non-`ok true` entry at index
`n` bounds the number of executed steps by `n + 1`. -/
theorem c1_sequencer_short_circuits (env : RunEnv) (n : Nat)
    (h : n < (step_results env).length)
    (hfail : (step_results env).get ⟨n, h⟩ ≠ .ok true) :
    (run_steps (step_results env)).snd ≤ n + 1 :=
  run_steps_stops_at_failure (step_results env) n h hfail

/-- Witness for C1: in a run whose reply stream is closed, the first step
fails and at most one step is executed. -/
theorem c1_sequencer_short_circuits_witness :
    (run_steps (step_results closed_stream_env)).snd ≤ 0 + 1 :=
  c1_sequencer_short_circuits closed_stream_env 0 (by decide)
    (fun hc => Bool.noConfusion (Except.ok.inj hc))

/-- C3: `stop_server` is total and idempotent: with no process (start
never called, or failed before spawning) it does nothing beyond
recording the call (no signal, no error — the function is total); on a
handle whose process already exited (a start that failed during the
settle interval) it delivers no signal; whatever handle it leaves behind
is not a running process; and a second call in succession only records
the call — it has no second process to signal or kill. -/
theorem c3_stop_idempotent (s : Option ProcHandle) :
    stop_server none = (none, [HarnessAction.stopCall])
    ∧ (∀ p, p.alive = false →
        (stop_server (some p)).snd = [HarnessAction.stopCall])
    ∧ (∀ p, (stop_server s).fst = some p → p.alive = false)
    ∧ (stop_server (stop_server s).fst).snd = [HarnessAction.stopCall] := by
  refine ⟨rfl, ?_, ?_, ?_⟩
  · intro p hp
    simp [stop_server, hp]
  · intro p hp
    cases s with
    | none => simp [stop_server] at hp
    | some q =>
      by_cases hq : q.alive = true
      · by_cases ht : q.exitsOnTerm = true <;>
          simp [stop_server, hq, ht] at hp <;> simp [← hp]
      · simp [stop_server, hq] at hp
        rw [← hp]
        exact Bool.not_eq_true _ |>.mp hq
  · cases s with
    | none => rfl
    | some q =>
      by_cases hq : q.alive = true
      · by_cases ht : q.exitsOnTerm = true <;> simp [stop_server, hq, ht]
      · simp [stop_server, hq, Bool.not_eq_true _ |>.mp hq]

/-- Witness for C3: stopping a running server and stopping again — the
handle left behind is not running and the second call only records the
call. -/
theorem c3_stop_idempotent_witness :
    (stop_server (some ({ alive := false, exitsOnTerm := true } : ProcHandle))).snd =
      [HarnessAction.stopCall]
    ∧ ({ alive := false, exitsOnTerm := true } : ProcHandle).alive = false
    ∧ (stop_server
        (stop_server (some { alive := true, exitsOnTerm := true })).fst).snd =
        [HarnessAction.stopCall] :=
  ⟨(c3_stop_idempotent (some { alive := true, exitsOnTerm := true })).2.1
      { alive := false, exitsOnTerm := true } rfl,
   (c3_stop_idempotent (some { alive := true, exitsOnTerm := true })).2.2.1
      { alive := false, exitsOnTerm := true } rfl,
   (c3_stop_idempotent (some { alive := true, exitsOnTerm := true })).2.2.2⟩

/-- C4: if the reply stream is closed before a line is received (empty
`readline()` result), or the received line fails to parse, then
`send_request` returns `none` and every one of the four test steps,
given that `none`, returns `False` (an `.ok false`, not an exception). -/
theorem c4_transport_failure (loads : String → Option JVal) (line : String)
    (h : line.isEmpty = true ∨ loads (pyStrip line) = none) :
    send_request line loads = none
    ∧ test_init (send_request line loads) = .ok false
    ∧ test_list_tools (send_request line loads) = .ok false
    ∧ test_list_resources (send_request line loads) = .ok false
    ∧ test_tool_execution (send_request line loads) = .ok false := by
  have hn : send_request line loads = none := by
    unfold send_request
    rcases h with h | h
    · simp [h]
    · simp [h]
  exact ⟨hn, by rw [hn]; rfl, by rw [hn]; rfl, by rw [hn]; rfl, by rw [hn]; rfl⟩

/-- Witness for C4: a closed stream (empty line) yields `none` and a
failed first step. -/
theorem c4_transport_failure_witness :
    send_request "" (fun _ => none) = none
    ∧ test_init (send_request "" (fun _ => none)) = .ok false :=
  ⟨(c4_transport_failure (fun _ => none) "" (Or.inl rfl)).1,
   (c4_transport_failure (fun _ => none) "" (Or.inl rfl)).2.1⟩

/-- A response carrying both `result` and `error` — violating the
JSON-RPC exclusivity requirement — whose result has the shape
`test_init` expects. -/
def both_result_and_error_resp : JVal :=
  .obj [("jsonrpc", .str "2.0"), ("id", .num 1),
        ("result", .obj [("capabilities", .obj [])]),
        ("error", .obj [("code", .num (-32600)), ("message", .str "boom")])]

/-- Counterexample to C2: a response in which `result` and `error` are
both present is not rejected — the initialize step accepts it outright,
so the harness does not validate result/error exclusivity at all, let
alone as its first check. -/
theorem c2_counterexample :
    test_init (some both_result_and_error_resp) = .ok true := rfl

/-- C2 amended: the harness's first checks on a response are truthiness
and the presence of `result` alone; the `error` field is never examined,
so a response violating result/error exclusivity is not rejected.
Formally: adding an `error` binding to a response object changes no
step's verdict. -/
theorem c2_error_never_validated (fields : List (String × JVal)) (v : JVal) :
    test_init (some (.obj (("error", v) :: fields))) =
      test_init (some (.obj fields))
    ∧ test_list_tools (some (.obj (("error", v) :: fields))) =
      test_list_tools (some (.obj fields))
    ∧ test_list_resources (some (.obj (("error", v) :: fields))) =
      test_list_resources (some (.obj fields))
    ∧ test_tool_execution (some (.obj (("error", v) :: fields))) =
      test_tool_execution (some (.obj fields)) := by
  cases fields <;> exact ⟨rfl, rfl, rfl, rfl⟩

/-- A successful string indexing forces the value to be a dict whose
lookup succeeds; such a dict is non-empty, hence truthy, and the
membership test for that key holds. -/
theorem index_ok_elim (r : JVal) (k : String) (v : JVal)
    (h : index r k = .ok v) :
    hasKey r k = .ok true ∧ r.truthy = true := by
  cases r with
  | obj fields =>
    cases hl : List.lookup k fields with
    | none => simp [index, hl] at h
    | some w =>
      refine ⟨by simp [hasKey, hl], ?_⟩
      cases fields with
      | nil => simp [List.lookup] at hl
      | cons f fs => simp [JVal.truthy]
  | null => simp [index] at h
  | bool b => simp [index] at h
  | num n => simp [index] at h
  | str s => simp [index] at h
  | arr l => simp [index] at h

/-- C7: if steps 1 and 2 pass and the `resources/list` response carries a
result whose resource list is empty, then step 3 fails, only 3 of the
steps are executed (step 4 never runs), and the tally is 2 passed of the
4 total. -/
theorem c7_empty_resources (env : RunEnv) (r3 result : JVal)
    (h1 : test_init (resp1 env) = .ok true)
    (h2 : test_list_tools (resp2 env) = .ok true)
    (h3 : resp3 env = some r3)
    (hres : index r3 "result" = .ok result)
    (hempty : dictGet result "resources" (.arr []) = .ok (.arr [])) :
    test_list_resources (resp3 env) = .ok false
    ∧ run_steps (step_results env) = (.ok 2, 3)
    ∧ total_tests = 4 := by
  have hk := index_ok_elim r3 "result" result hres
  have hstep3 : test_list_resources (some r3) = .ok false := by
    simp [test_list_resources, hk.1, hk.2, hres, hempty, pyLen]
  have hsr : step_results env =
      [Except.ok true, Except.ok true, Except.ok false,
       test_tool_execution (resp4 env)] := by
    unfold step_results
    rw [h1, h2, h3, hstep3]
  refine ⟨by rw [h3]; exact hstep3, ?_, rfl⟩
  rw [hsr]
  rfl

/-- Witness for C7: the concrete run in which the server answers the
first two requests correctly and then reports an empty resource list. -/
theorem c7_empty_resources_witness :
    test_list_resources (resp3 empty_resources_env) = .ok false
    ∧ run_steps (step_results empty_resources_env) = (.ok 2, 3)
    ∧ total_tests = 4 :=
  c7_empty_resources empty_resources_env resources_empty_resp
    (.obj [("resources", .arr [])]) rfl rfl rfl rfl rfl

/-- C10: when the `tools/list` result lacks a `tools` field entirely, the
step does not raise: `.get("tools", [])` substitutes the empty list, the
extracted names are empty, every required name is reported missing — the
printed `missing_tools` list is exactly the six required names — and the
step returns `False`. -/
theorem c10_missing_tools_field (fields rfields : List (String × JVal))
    (hres : List.lookup "result" fields = some (.obj rfields))
    (hnone : List.lookup "tools" rfields = none) :
    test_list_tools (some (.obj fields)) = .ok false
    ∧ missing_tools [] = expected_tools
    ∧ expected_tools.length = 6 := by
  have htr : (JVal.obj fields).truthy = true := by
    cases fields with
    | nil => simp [List.lookup] at hres
    | cons f fs => simp [JVal.truthy]
  refine ⟨?_, by decide, by decide⟩
  simp [test_list_tools, htr, hasKey, index, hres, dictGet, hnone, pyIter,
        extractNames, missing_tools, containsStr, expected_tools]

/-- Witness for C10: a concrete `tools/list` response whose result is a
dict without a `tools` entry. -/
theorem c10_missing_tools_field_witness :
    test_list_tools (some (.obj [("result", .obj [("x", .num 1)])])) =
      .ok false
    ∧ missing_tools [] = expected_tools
    ∧ expected_tools.length = 6 :=
  c10_missing_tools_field [("result", .obj [("x", .num 1)])]
    [("x", .num 1)] rfl rfl

/-- Every invocation of `stop_server` records itself in the action
trace. -/
theorem stop_server_records_call (x : Option ProcHandle) :
    HarnessAction.stopCall ∈ (stop_server x).snd := by
  cases x with
  | none => simp [stop_server]
  | some p =>
    by_cases hp : p.alive = true
    · by_cases ht : p.exitsOnTerm = true <;> simp [stop_server, hp, ht]
    · simp [stop_server, Bool.not_eq_true _ |>.mp hp]

/-- `start_server` never records a `stop_server` invocation. -/
theorem start_server_no_stop (env : StartEnv) (s : Option ProcHandle) :
    HarnessAction.stopCall ∉ (start_server env s).snd.snd := by
  unfold start_server
  split_ifs <;> simp

/-- The exit code of a run without arguments, characterized: it is 0
exactly when the launch succeeded and all four steps passed. -/
theorem process_exit_code_zero_iff (env : RunEnv) :
    process_exit_code argvRun env = 0 ↔
      ((start_server env.startEnv none).fst = true
       ∧ (run_steps (step_results env)).fst = Except.ok total_tests) := by
  rcases hst : start_server env.startEnv none with ⟨ok, s1, acts1⟩
  cases ok with
  | false =>
    simp [process_exit_code, main_run, helpRequested, argvRun,
          run_all_tests, hst, Except.map]
  | true =>
    rcases hsp : stop_server s1 with ⟨s2, acts2⟩
    rcases hrs : run_steps (step_results env) with ⟨outcome, att⟩
    cases outcome with
    | error e =>
      simp [process_exit_code, main_run, helpRequested, argvRun,
            run_all_tests, hst, hrs, hsp, Except.map]
    | ok p =>
      simp only [process_exit_code, main_run, helpRequested, argvRun,
                 run_all_tests, hst, hrs, hsp, Except.map]
      by_cases hp : p = total_tests
      · simp [hp, total_tests]
      · have : (p == total_tests) = false := by
          simp [hp]
        simp [this, hp]

/-- The exit code of a run without arguments is always 0 or 1. -/
theorem process_exit_code_zero_or_one (env : RunEnv) :
    process_exit_code argvRun env = 0 ∨ process_exit_code argvRun env = 1 := by
  rcases hst : start_server env.startEnv none with ⟨ok, s1, acts1⟩
  cases ok with
  | false =>
    right
    simp [process_exit_code, main_run, helpRequested, argvRun,
          run_all_tests, hst, Except.map]
  | true =>
    rcases hsp : stop_server s1 with ⟨s2, acts2⟩
    rcases hrs : run_steps (step_results env) with ⟨outcome, att⟩
    cases outcome with
    | error e =>
      right
      simp [process_exit_code, main_run, helpRequested, argvRun,
            run_all_tests, hst, hrs, hsp, Except.map]
    | ok p =>
      simp only [process_exit_code, main_run, helpRequested, argvRun,
                 run_all_tests, hst, hrs, hsp, Except.map]
      by_cases hp : (p == total_tests) = true <;> simp [hp]

/-- C5: for a run without arguments, the process exits 0 exactly when
the server started and every one of the four steps passed; it exits 1
when the server failed to start or when the sequencer did not record all
four steps as passed (a failing step, or one that raised); and the
interrupt handler always exits 1. -/
theorem c5_exit_codes (env : RunEnv) (s : Option ProcHandle) :
    (process_exit_code argvRun env = 0 ↔
      ((start_server env.startEnv none).fst = true
       ∧ (run_steps (step_results env)).fst = Except.ok total_tests))
    ∧ ((start_server env.startEnv none).fst = false →
        process_exit_code argvRun env = 1)
    ∧ ((run_steps (step_results env)).fst ≠ Except.ok total_tests →
        process_exit_code argvRun env = 1)
    ∧ (signal_handler s).fst = 1 := by
  have hiff := process_exit_code_zero_iff env
  have h01 := process_exit_code_zero_or_one env
  have hsh : (signal_handler s).fst = 1 := by
    rcases h : stop_server s with ⟨s2, acts⟩
    simp [signal_handler, h]
  refine ⟨hiff, ?_, ?_, hsh⟩
  · intro hfalse
    rcases h01 with h0 | h1
    · exact absurd ((hiff.mp h0).1) (by simp [hfalse])
    · exact h1
  · intro hne
    rcases h01 with h0 | h1
    · exact absurd ((hiff.mp h0).2) hne
    · exact h1

/-- Witness for C5: the launch-failure run exits 1, a run with a closed
reply stream exits 1, and the all-good run exits 0. -/
theorem c5_exit_codes_witness :
    process_exit_code argvRun jar_missing_env = 1
    ∧ process_exit_code argvRun closed_stream_env = 1
    ∧ process_exit_code argvRun good_env = 0
    ∧ (signal_handler none).fst = 1 :=
  ⟨(c5_exit_codes jar_missing_env none).2.1 rfl,
   (c5_exit_codes closed_stream_env none).2.2.1
     (by intro hc
         have h0 : (0 : Nat) = total_tests := Except.ok.inj hc
         exact absurd h0 (by decide)),
   (c5_exit_codes good_env none).1.mpr ⟨rfl, rfl⟩,
   (c5_exit_codes good_env none).2.2.2⟩

/-- Counterexample to C6: when the server fails to start (missing JAR),
`run_all_tests` returns at line 215, before the `try/finally`; the whole
run then exits 1 without `stop_server` ever having been invoked — so
cleanup is not attempted on this exit path. -/
theorem c6_counterexample :
    (start_server jar_missing_env.startEnv none).fst = false
    ∧ HarnessAction.stopCall ∉ (run_all_tests jar_missing_env none).actions
    ∧ process_exit_code argvRun jar_missing_env = 1 :=
  ⟨rfl, by decide, rfl⟩

/-- C6 amended: `stop_server` is attempted on the pass, step-failure,
step-exception and interrupt exit paths — every exit path on which
`start_server` succeeded, plus the signal handler — but not on the
launch-failure path, where `run_all_tests` returns before the
`try/finally` block. -/
theorem c6_stop_attempted (env : RunEnv) (s : Option ProcHandle) :
    ((start_server env.startEnv none).fst = true →
      HarnessAction.stopCall ∈ (run_all_tests env none).actions)
    ∧ HarnessAction.stopCall ∈ (signal_handler s).snd.snd
    ∧ ((start_server env.startEnv none).fst = false →
      HarnessAction.stopCall ∉ (run_all_tests env none).actions) := by
  refine ⟨?_, ?_, ?_⟩
  · intro h
    rcases hst : start_server env.startEnv none with ⟨ok, s1, acts1⟩
    rw [hst] at h
    cases ok with
    | false => exact absurd h (by simp)
    | true =>
      rcases hrs : run_steps (step_results env) with ⟨outcome, att⟩
      rcases hsp : stop_server s1 with ⟨s2, acts2⟩
      have hmem : HarnessAction.stopCall ∈ acts2 := by
        have := stop_server_records_call s1
        rwa [hsp] at this
      simp [run_all_tests, hst, hrs, hsp]
      exact Or.inr hmem
  · rcases hsp : stop_server s with ⟨s2, acts⟩
    have := stop_server_records_call s
    rw [hsp] at this
    simpa [signal_handler, hsp] using this
  · intro h
    rcases hst : start_server env.startEnv none with ⟨ok, s1, acts1⟩
    rw [hst] at h
    cases ok with
    | true => exact absurd h (by simp)
    | false =>
      have := start_server_no_stop env.startEnv (none : Option ProcHandle)
      rw [hst] at this
      simpa [run_all_tests, hst] using this

/-- Witness for C6: cleanup is recorded in the all-good run and absent in
the launch-failure run. -/
theorem c6_stop_attempted_witness :
    HarnessAction.stopCall ∈ (run_all_tests good_env none).actions
    ∧ HarnessAction.stopCall ∉ (run_all_tests jar_missing_env none).actions :=
  ⟨(c6_stop_attempted good_env none).1 rfl,
   (c6_stop_attempted jar_missing_env none).2.2 rfl⟩

/-- Counterexample to C8: with the JAR path missing, `start_server`
reports failure although no process was spawned at all (so no "spawned
process exited during the settle interval" occurred) — the claimed
condition is not the only failure condition. -/
theorem c8_counterexample :
    (start_server jarMissingStart none).fst = false
    ∧ jarMissingStart.exitsDuringGrace = false
    ∧ HarnessAction.spawn ∉ (start_server jarMissingStart none).snd.snd :=
  ⟨rfl, rfl, by decide⟩

/-- C8 amended: `start_server` reports failure exactly when the JAR path
is missing, or spawning raises, or the spawned process has already
exited by the end of the settle interval; its error stream is read and
surfaced exactly in the last case. -/
theorem c8_start_failure_conditions (env : StartEnv) (s : Option ProcHandle) :
    ((start_server env s).fst = false ↔
      (env.jarExists = false ∨ env.spawnRaises = true
       ∨ env.exitsDuringGrace = true))
    ∧ (HarnessAction.readStderr ∈ (start_server env s).snd.snd ↔
      (env.jarExists = true ∧ env.spawnRaises = false
       ∧ env.exitsDuringGrace = true)) := by
  rcases env with ⟨jar, raises, grace, term⟩
  cases jar <;> cases raises <;> cases grace <;> simp [start_server]

/-- Witness for C8: the characterization applied to the clean launch
environment. -/
theorem c8_start_failure_conditions_witness :
    (start_server goodStart none).fst = false ↔
      (goodStart.jarExists = false ∨ goodStart.spawnRaises = true
       ∨ goodStart.exitsDuringGrace = true) :=
  (c8_start_failure_conditions goodStart none).1

/-- C9: with `--help` as first argument, `main` prints usage and returns:
exit code 0, no action taken (in particular no child spawned) and no
request sent. With no arguments the full sequence runs: the child is
spawned whenever the JAR exists and spawning does not raise, and the
number of requests sent equals the number of steps the sequencer
executed. -/
theorem c9_help_flag (env : RunEnv) (rest : List String) :
    main_run ("comprehensive-test.py" :: "--help" :: rest) env = (.ok 0, [], 0)
    ∧ ((start_server env.startEnv none).fst = true →
        (main_run argvRun env).snd.snd = (run_steps (step_results env)).snd)
    ∧ (env.startEnv.jarExists = true → env.startEnv.spawnRaises = false →
        HarnessAction.spawn ∈ (main_run argvRun env).snd.fst) := by
  refine ⟨rfl, ?_, ?_⟩
  · intro h
    rcases hst : start_server env.startEnv none with ⟨ok, s1, acts1⟩
    rw [hst] at h
    cases ok with
    | false => exact absurd h (by simp)
    | true =>
      rcases hrs : run_steps (step_results env) with ⟨outcome, att⟩
      rcases hsp : stop_server s1 with ⟨s2, acts2⟩
      simp [main_run, helpRequested, argvRun, run_all_tests, hst, hrs, hsp]
  · intro hjar hraise
    rcases henv : env.startEnv with ⟨jar, raises, grace, term⟩
    rw [henv] at hjar hraise
    cases hjar; cases hraise
    cases grace with
    | true =>
      simp [main_run, helpRequested, argvRun, run_all_tests, start_server,
            henv]
    | false =>
      rcases hrs : run_steps (step_results env) with ⟨outcome, att⟩
      simp [main_run, helpRequested, argvRun, run_all_tests, start_server,
            henv, hrs, stop_server]

/-- Witness for C9: the help invocation of the all-good environment, and
its no-argument run. -/
theorem c9_help_flag_witness :
    main_run ("comprehensive-test.py" :: "--help" :: []) good_env =
      (.ok 0, [], 0)
    ∧ (main_run argvRun good_env).snd.snd =
      (run_steps (step_results good_env)).snd
    ∧ HarnessAction.spawn ∈ (main_run argvRun good_env).snd.fst :=
  ⟨(c9_help_flag good_env []).1,
   (c9_help_flag good_env []).2.1 rfl,
   (c9_help_flag good_env []).2.2 rfl rfl⟩

